import Mathlib

/-!
# Camera2ClientBase: the client session of the camera service

A shallow embedding of
`services/camera/libcameraservice/common/Camera2ClientBase.cpp`.

* A session is the record of the member fields the file reads or writes
  (those of `Camera2ClientBase` and those it reaches in `TClientBase`).
* `CameraThreadState::getCallingPid()` is an explicit argument `callingPid`.
* Every call on a collaborator (the device handle, the camera service, the
  base client's accounting, the telemetry wrapper) is recorded as an `Effect`
  in the order the code makes it; the status a collaborator returns is an
  argument of the operation and is carried by the recorded effect.
* `ALOGV`/`ALOGE`/`ALOGI` lines and `ATRACE_CALL` touch neither the session nor
  a collaborator and are not recorded.
* `mBinderSerializationLock` and `mRemoteCallbackLock` are taken and released
  inside one call; the embedding is sequential and does not record them.
-/

namespace Camera2ClientBase

/-! ## Status codes -/

/-- The type `status_t` of the platform: a 32-bit signed status code. -/
abbrev status_t := Int

/-- Status `OK` of `utils/Errors.h`. -/
def OK : status_t := 0

/-- Status `NO_ERROR` of `utils/Errors.h`, the same value as `OK`. -/
def NO_ERROR : status_t := 0

/-- Status `PERMISSION_DENIED` of `utils/Errors.h` (`-EPERM`). -/
def PERMISSION_DENIED : status_t := -1

/-- Status `NO_INIT` of `utils/Errors.h` (`-ENODEV`). -/
def NO_INIT : status_t := -19

/-- Status `BAD_VALUE` of `utils/Errors.h` (`-EINVAL`). -/
def BAD_VALUE : status_t := -22

/-- The `binder::Status` value returned by `disconnect`: an exception code,
`0` (`EX_NONE`) for `binder::Status::ok()`. -/
structure BinderStatus where
  exceptionCode : Int
  deriving DecidableEq, Repr

/-- The value `binder::Status::ok()`. -/
def BinderStatus.ok : BinderStatus := ⟨0⟩

/-- The test `binder::Status::isOk()`. -/
def BinderStatus.isOk (st : BinderStatus) : Bool := st.exceptionCode == 0

/-! ## Data model -/

/-- A strong pointer `sp<TCamCallbacks>`: `none` is the null pointer, `some n`
the remote callback object with identity `n`. -/
abbrev CallbackRef := Option Nat

/-- The object `new Camera3Device(cameraId, overrideForPerfClass, legacyClient)`
builds, as far as this file determines it: its constructor arguments. -/
structure Camera3Device where
  cameraId : String
  overrideForPerfClass : Bool
  legacyClient : Bool
  deriving DecidableEq, Repr

/-- The nested class `SharedCameraCallbacks`: the guarded holder of the remote
callback. -/
structure SharedCameraCallbacks where
  mRemoteCallback : CallbackRef
  deriving DecidableEq, Repr

/-- Constructor `SharedCameraCallbacks::SharedCameraCallbacks(client)`. -/
def SharedCameraCallbacks.mk_from (client : CallbackRef) : SharedCameraCallbacks :=
  { mRemoteCallback := client }

/-- Assignment `SharedCameraCallbacks::operator=(client)`: under
`mRemoteCallbackLock`, `mRemoteCallback = client`. -/
def SharedCameraCallbacks.assign (_self : SharedCameraCallbacks) (client : CallbackRef) :
    SharedCameraCallbacks :=
  { mRemoteCallback := client }

/-- Method `SharedCameraCallbacks::clear()`: under the lock,
`mRemoteCallback.clear()`. -/
def SharedCameraCallbacks.clear (_self : SharedCameraCallbacks) : SharedCameraCallbacks :=
  { mRemoteCallback := none }

/-- The member fields of one `Camera2ClientBase<TClientBase>` object. The first
group lives in `TClientBase` (`CameraService::BasicClient` and its `Client`
layers), the second in `Camera2ClientBase` itself. `mDevice = none` is the null
`sp<CameraDeviceBase>`. -/
structure Session where
  mCameraIdStr : String
  mClientPackageName : String
  mCameraFacing : Int
  mOrientation : Int
  mClientPid : Int
  mClientUid : Nat
  mServicePid : Int
  mRemoteCallback : CallbackRef
  mDisconnected : Bool
  mDestructionStarted : Bool
  mSharedCameraCallbacks : SharedCameraCallbacks
  mDeviceVersion : Int
  mDevice : Option Camera3Device
  mDeviceActive : Bool
  mApi1CameraId : Int
  mInitialClientPid : Int
  deriving DecidableEq, Repr

/-- One `hardware::CameraStreamStats` record; this file only forwards the
records to the telemetry wrapper, so a record is its identity. -/
abbrev CameraStreamStats := Nat

/-- The fields of `CaptureResultExtras` this file reads. -/
structure CaptureResultExtras where
  requestId : Int
  deriving DecidableEq, Repr

/-- One call on a collaborator of the session, with the status it returned
where it returns one. -/
inductive Effect where
  /-- Call `TClientBase::startCameraOps()`. -/
  | startCameraOps (res : status_t)
  /-- Call `mDevice->initialize(providerPtr, monitorTags)`. -/
  | deviceInitialize (res : status_t)
  /-- Call `mDevice->setNotifyCallback(weakThis)`. -/
  | setNotifyCallback (res : status_t)
  /-- Call `getCameraService()->cacheDump()`. -/
  | cacheDump
  /-- Call `mDevice->disconnect()`. -/
  | deviceDisconnect
  /-- Call `CameraService::BasicClient::disconnect()`. -/
  | baseDisconnect
  /-- Call `TClientBase::startCameraStreamingOps()`. -/
  | startCameraStreamingOps (res : status_t)
  /-- Call `TClientBase::finishCameraStreamingOps()`. -/
  | finishCameraStreamingOps (res : status_t)
  /-- Call `CameraServiceProxyWrapper::logActive(mCameraIdStr)`. -/
  | logActive (cameraId : String)
  /-- Call `CameraServiceProxyWrapper::logIdle(mCameraIdStr, requestCount,
  resultErrorCount, deviceError, streamStats)`. -/
  | logIdle (cameraId : String) (requestCount resultErrorCount : Int) (deviceError : Bool)
      (streamStats : List CameraStreamStats)
  deriving DecidableEq, Repr

/-- What one operation yields: its return value, the session after it, and
the collaborator calls it made, oldest first. -/
structure Outcome (α : Type) where
  result : α
  session : Session
  effects : List Effect
  deriving DecidableEq, Repr

/-- Whether an effect is a call on the device handle `mDevice`. -/
def Effect.onDevice : Effect → Bool
  | .deviceInitialize _ => true
  | .setNotifyCallback _ => true
  | .deviceDisconnect => true
  | _ => false

/-- How many `mDevice->disconnect()` calls a list of effects holds. -/
def deviceDisconnectCalls (es : List Effect) : Nat :=
  es.count Effect.deviceDisconnect

/-- How many `cacheDump()` calls a list of effects holds. -/
def cacheDumpCalls (es : List Effect) : Nat :=
  es.count Effect.cacheDump

/-- The fields of a session that hold a reference to a remote callback. -/
def Session.callbackHolders (s : Session) : List CallbackRef :=
  [s.mRemoteCallback, s.mSharedCameraCallbacks.mRemoteCallback]

/-! ## Construction -/

/-- Modelled from the spec: the constructor of `TClientBase` is not in this
file; it "records identity fields", and a fresh session is neither
disconnected nor in destruction. The constructor of `Camera2ClientBase` then
sets `mSharedCameraCallbacks`, `mDeviceVersion` (the value
`cameraService->getDeviceVersion(mCameraIdStr)` returned, an argument here),
`mDevice` (a new `Camera3Device`, never null: `LOG_ALWAYS_FATAL_IF` ends the
process otherwise), `mDeviceActive = false`, `mApi1CameraId` and
`mInitialClientPid`. -/
def construct (deviceVersion : Int) (remoteCallback : CallbackRef)
    (clientPackageName : String) (cameraId : String) (api1CameraId : Int)
    (cameraFacing : Int) (sensorOrientation : Int) (clientPid : Int) (clientUid : Nat)
    (servicePid : Int) (overrideForPerfClass : Bool) (legacyClient : Bool) : Session :=
  { mCameraIdStr := cameraId
    mClientPackageName := clientPackageName
    mCameraFacing := cameraFacing
    mOrientation := sensorOrientation
    mClientPid := clientPid
    mClientUid := clientUid
    mServicePid := servicePid
    mRemoteCallback := remoteCallback
    mDisconnected := false
    mDestructionStarted := false
    mSharedCameraCallbacks := SharedCameraCallbacks.mk_from remoteCallback
    mDeviceVersion := deviceVersion
    mDevice := some { cameraId := cameraId
                      overrideForPerfClass := overrideForPerfClass
                      legacyClient := legacyClient }
    mDeviceActive := false
    mApi1CameraId := api1CameraId
    mInitialClientPid := clientPid }

/-! ## Control operations -/

/-- Method `checkPid(checkLocation)`: `NO_ERROR` when the calling pid is
`mClientPid`, else `PERMISSION_DENIED`. -/
def checkPid (s : Session) (callingPid : Int) : Outcome status_t :=
  if callingPid = s.mClientPid then ⟨NO_ERROR, s, []⟩
  else ⟨PERMISSION_DENIED, s, []⟩

/-- Method `initializeImpl(providerPtr, monitorTags)`, to which `initialize`
forwards. `opsRes`, `devRes` and `cbRes` are the statuses that
`startCameraOps()`, `mDevice->initialize(..)` and
`mDevice->setNotifyCallback(..)` return when the code reaches them. -/
def initializeImpl (s : Session) (opsRes devRes cbRes : status_t) : Outcome status_t :=
  if opsRes ≠ OK then
    ⟨opsRes, s, [Effect.startCameraOps opsRes]⟩
  else
    match s.mDevice with
    | none => ⟨NO_INIT, s, [Effect.startCameraOps opsRes]⟩
    | some _ =>
      if devRes ≠ OK then
        ⟨devRes, s, [Effect.startCameraOps opsRes, Effect.deviceInitialize devRes]⟩
      else
        ⟨OK, s, [Effect.startCameraOps opsRes, Effect.deviceInitialize devRes,
                 Effect.setNotifyCallback cbRes]⟩

/-- Method `detachDevice()`: nothing when `mDevice == 0`, else
`mDevice->disconnect()`. The field `mDevice` is not cleared. -/
def detachDevice (s : Session) : Session × List Effect :=
  match s.mDevice with
  | none => (s, [])
  | some _ => (s, [Effect.deviceDisconnect])

/-- Modelled from the spec: `CameraService::BasicClient::disconnect()` is not
in this file; it "marks the base state as disconnected", and "once
`disconnected` becomes true it never reverts". -/
def basicClientDisconnect (s : Session) : Session :=
  { s with mDisconnected := true }

/-- Method `disconnect()`: returns `binder::Status::ok()` at once unless the
calling pid is `mClientPid` or `mServicePid`; otherwise `cacheDump()` when not
yet disconnected, then `detachDevice()`, then
`CameraService::BasicClient::disconnect()`. -/
def disconnect (s : Session) (callingPid : Int) : Outcome BinderStatus :=
  let res := BinderStatus.ok
  if callingPid ≠ s.mClientPid ∧ callingPid ≠ s.mServicePid then
    ⟨res, s, []⟩
  else
    let dump := if !s.mDisconnected then [Effect.cacheDump] else []
    let detached := detachDevice s
    ⟨res, basicClientDisconnect detached.1, dump ++ detached.2 ++ [Effect.baseDisconnect]⟩

/-- Method `connect(client)`: `BAD_VALUE` when `mClientPid` is non-zero and
differs from the calling pid; otherwise `mClientPid`, `mRemoteCallback` and
`mSharedCameraCallbacks` are overwritten and the result is `OK`. -/
def connect (s : Session) (callingPid : Int) (client : CallbackRef) : Outcome status_t :=
  if s.mClientPid ≠ 0 ∧ callingPid ≠ s.mClientPid then
    ⟨BAD_VALUE, s, []⟩
  else
    ⟨OK, { s with mClientPid := callingPid
                  mRemoteCallback := client
                  mSharedCameraCallbacks := s.mSharedCameraCallbacks.assign client }, []⟩

/-- Destructor `~Camera2ClientBase()`: `mDestructionStarted = true`, then
`disconnect()`. -/
def destroy (s : Session) (callingPid : Int) : Outcome BinderStatus :=
  disconnect { s with mDestructionStarted := true } callingPid

/-! ## Device-related methods (the notification sink) -/

/-- Method `notifyError(errorCode, resultExtras)`: one `ALOGE` line. -/
def notifyError (s : Session) (_errorCode : Int) (_resultExtras : CaptureResultExtras) :
    Outcome Unit :=
  ⟨(), s, []⟩

/-- Method `notifyActive()`. `startRes` is the status
`TClientBase::startCameraStreamingOps()` returns when the code calls it. -/
def notifyActive (s : Session) (startRes : status_t) : Outcome status_t :=
  if !s.mDeviceActive then
    if startRes ≠ OK then
      ⟨startRes, s, [Effect.startCameraStreamingOps startRes]⟩
    else
      ⟨OK, { s with mDeviceActive := true },
        [Effect.startCameraStreamingOps startRes, Effect.logActive s.mCameraIdStr]⟩
  else
    ⟨OK, { s with mDeviceActive := true }, []⟩

/-- Method `notifyIdle(requestCount, resultErrorCount, deviceError,
streamStats)`. `finishRes` is the status
`TClientBase::finishCameraStreamingOps()` returns when the code calls it. -/
def notifyIdle (s : Session) (requestCount resultErrorCount : Int) (deviceError : Bool)
    (streamStats : List CameraStreamStats) (finishRes : status_t) : Outcome Unit :=
  if s.mDeviceActive then
    ⟨(), { s with mDeviceActive := false },
      [Effect.finishCameraStreamingOps finishRes,
       Effect.logIdle s.mCameraIdStr requestCount resultErrorCount deviceError streamStats]⟩
  else
    ⟨(), { s with mDeviceActive := false }, []⟩

/-- Method `notifyShutter(resultExtras, timestamp)`: one `ALOGV` line. -/
def notifyShutter (s : Session) (_resultExtras : CaptureResultExtras) (_timestamp : Int) :
    Outcome Unit :=
  ⟨(), s, []⟩

/-- Method `notifyAutoFocus(newState, triggerId)`: one `ALOGV` line. -/
def notifyAutoFocus (s : Session) (_newState : Nat) (_triggerId : Int) : Outcome Unit :=
  ⟨(), s, []⟩

/-- Method `notifyAutoExposure(newState, triggerId)`: one `ALOGV` line. -/
def notifyAutoExposure (s : Session) (_newState : Nat) (_triggerId : Int) : Outcome Unit :=
  ⟨(), s, []⟩

/-- Method `notifyAutoWhitebalance(newState, triggerId)`: one `ALOGV` line. -/
def notifyAutoWhitebalance (s : Session) (_newState : Nat) (_triggerId : Int) : Outcome Unit :=
  ⟨(), s, []⟩

/-- Method `notifyPrepared(streamId)`: one `ALOGV` line. -/
def notifyPrepared (s : Session) (_streamId : Int) : Outcome Unit :=
  ⟨(), s, []⟩

/-- Method `notifyRequestQueueEmpty()`: one `ALOGV` line. -/
def notifyRequestQueueEmpty (s : Session) : Outcome Unit :=
  ⟨(), s, []⟩

/-- Method `notifyRepeatingRequestError(lastFrameNumber)`: one `ALOGV` line. -/
def notifyRepeatingRequestError (s : Session) (_lastFrameNumber : Int) : Outcome Unit :=
  ⟨(), s, []⟩

/-! ## Sequences of calls -/

/-- One delivery to the notification sink: the method called, its arguments,
and the status the accounting call returns if the method makes one. -/
inductive Notification where
  | error (errorCode : Int) (resultExtras : CaptureResultExtras)
  | shutter (resultExtras : CaptureResultExtras) (timestamp : Int)
  | autoFocus (newState : Nat) (triggerId : Int)
  | autoExposure (newState : Nat) (triggerId : Int)
  | autoWhitebalance (newState : Nat) (triggerId : Int)
  | prepared (streamId : Int)
  | requestQueueEmpty
  | repeatingRequestError (lastFrameNumber : Int)
  | active (startRes : status_t)
  | idle (requestCount resultErrorCount : Int) (deviceError : Bool)
      (streamStats : List CameraStreamStats) (finishRes : status_t)
  deriving DecidableEq, Repr

/-- The eight notifications whose handlers only write a log line. -/
def Notification.isDiagnostic : Notification → Bool
  | .active _ => false
  | .idle _ _ _ _ _ => false
  | _ => true

/-- Whether the delivery is a `notifyActive()` call. -/
def Notification.isActive : Notification → Bool
  | .active _ => true
  | _ => false

/-- Deliver one notification: the session after the handler and the
collaborator calls the handler made (the handlers' return values are dropped
by the device). -/
def deliver (s : Session) : Notification → Session × List Effect
  | .error c x => ((notifyError s c x).session, (notifyError s c x).effects)
  | .shutter x t => ((notifyShutter s x t).session, (notifyShutter s x t).effects)
  | .autoFocus n t => ((notifyAutoFocus s n t).session, (notifyAutoFocus s n t).effects)
  | .autoExposure n t =>
      ((notifyAutoExposure s n t).session, (notifyAutoExposure s n t).effects)
  | .autoWhitebalance n t =>
      ((notifyAutoWhitebalance s n t).session, (notifyAutoWhitebalance s n t).effects)
  | .prepared i => ((notifyPrepared s i).session, (notifyPrepared s i).effects)
  | .requestQueueEmpty => ((notifyRequestQueueEmpty s).session, (notifyRequestQueueEmpty s).effects)
  | .repeatingRequestError f =>
      ((notifyRepeatingRequestError s f).session, (notifyRepeatingRequestError s f).effects)
  | .active r => ((notifyActive s r).session, (notifyActive s r).effects)
  | .idle a b c d r => ((notifyIdle s a b c d r).session, (notifyIdle s a b c d r).effects)

/-- One operation on a live session, with its arguments, the calling pid for
a control call, and the statuses the collaborators return. -/
inductive Op where
  | init (opsRes devRes cbRes : status_t)
  | connect (callingPid : Int) (client : CallbackRef)
  | disconnect (callingPid : Int)
  | checkPid (callingPid : Int)
  | notify (n : Notification)
  deriving DecidableEq, Repr

/-- A session together with the history of collaborator calls made on its
behalf, oldest first. -/
structure World where
  session : Session
  trace : List Effect
  deriving DecidableEq, Repr

/-- Run one operation: the session moves on and the calls made are appended to
the history. -/
def step (w : World) : Op → World
  | .init a b c =>
      ⟨(initializeImpl w.session a b c).session,
        w.trace ++ (initializeImpl w.session a b c).effects⟩
  | .connect p cb =>
      ⟨(connect w.session p cb).session, w.trace ++ (connect w.session p cb).effects⟩
  | .disconnect p =>
      ⟨(disconnect w.session p).session, w.trace ++ (disconnect w.session p).effects⟩
  | .checkPid p =>
      ⟨(checkPid w.session p).session, w.trace ++ (checkPid w.session p).effects⟩
  | .notify n => ⟨(deliver w.session n).1, w.trace ++ (deliver w.session n).2⟩

/-- Run a sequence of operations, first to last. -/
def run (w : World) : List Op → World
  | [] => w
  | op :: ops => run (step w op) ops

/-- The device handle has been successfully initialized: the history holds an
`mDevice->initialize(..)` call that returned `OK`. -/
def deviceInitialized (t : List Effect) : Bool :=
  t.contains (Effect.deviceInitialize OK)

/-- The session has been registered as the device's notification sink: the
history holds an `mDevice->setNotifyCallback(..)` call. -/
def sinkRegistered (t : List Effect) : Bool :=
  t.any fun e => match e with
    | .setNotifyCallback _ => true
    | _ => false

/-- Every `notifyActive()` of the sequence is delivered at a point where the
session has already been registered as the device's notification sink. -/
def activeOnlyFromSink (w : World) : List Op → Bool
  | [] => true
  | .notify n :: ops =>
      (!n.isActive || sinkRegistered w.trace) && activeOnlyFromSink (step w (.notify n)) ops
  | op :: ops => activeOnlyFromSink (step w op) ops

/-- One call of the activity tracker: `notifyActive()` or `notifyIdle(..)`,
with the status the accounting call returns if it is made. -/
inductive ActivityCall where
  | active (startRes : status_t)
  | idle (requestCount resultErrorCount : Int) (deviceError : Bool)
      (streamStats : List CameraStreamStats) (finishRes : status_t)
  deriving DecidableEq, Repr

/-- Make one activity call. -/
def ActivityCall.apply (s : Session) : ActivityCall → Session × List Effect
  | .active r => ((notifyActive s r).session, (notifyActive s r).effects)
  | .idle a b c d r => ((notifyIdle s a b c d r).session, (notifyIdle s a b c d r).effects)

/-- Make a sequence of activity calls, first to last, collecting the
collaborator calls in order. -/
def runActivity (s : Session) : List ActivityCall → Session × List Effect
  | [] => (s, [])
  | c :: cs =>
      ((runActivity (c.apply s).1 cs).1, (c.apply s).2 ++ (runActivity (c.apply s).1 cs).2)

/-- The number of calls of the sequence on which `mDeviceActive` changes from
false to true. -/
def risingEdges (s : Session) : List ActivityCall → Nat
  | [] => 0
  | c :: cs =>
      (if s.mDeviceActive = false ∧ (c.apply s).1.mDeviceActive = true then 1 else 0)
        + risingEdges (c.apply s).1 cs

/-- The number of calls of the sequence on which `mDeviceActive` changes from
true to false. -/
def fallingEdges (s : Session) : List ActivityCall → Nat
  | [] => 0
  | c :: cs =>
      (if s.mDeviceActive = true ∧ (c.apply s).1.mDeviceActive = false then 1 else 0)
        + fallingEdges (c.apply s).1 cs

/-- The number of "active" telemetry events in a list of effects. -/
def logActiveCalls (es : List Effect) : Nat :=
  es.countP fun e => match e with
    | .logActive _ => true
    | _ => false

/-- The number of "idle" telemetry events in a list of effects. -/
def logIdleCalls (es : List Effect) : Nat :=
  es.countP fun e => match e with
    | .logIdle _ _ _ _ _ => true
    | _ => false

/-- Whether an effect is an accounting or a telemetry call. -/
def Effect.isAccountingOrTelemetry : Effect → Bool
  | .startCameraOps _ => true
  | .startCameraStreamingOps _ => true
  | .finishCameraStreamingOps _ => true
  | .logActive _ => true
  | .logIdle _ _ _ _ _ => true
  | _ => false

/-- The world right after the constructor has returned: the new session and an
empty history. -/
def World.opened (s : Session) : World :=
  ⟨s, []⟩

/-- The session is one the constructor builds, for some constructor
arguments. -/
def IsConstructed (s : Session) : Prop :=
  ∃ (deviceVersion : Int) (remoteCallback : CallbackRef) (clientPackageName cameraId : String)
    (api1CameraId cameraFacing sensorOrientation clientPid : Int) (clientUid : Nat)
    (servicePid : Int) (overrideForPerfClass legacyClient : Bool),
    s = construct deviceVersion remoteCallback clientPackageName cameraId api1CameraId
          cameraFacing sensorOrientation clientPid clientUid servicePid overrideForPerfClass
          legacyClient

/-- A session as the camera service opens it for a client with pid 100, the
service itself running as pid 5. -/
def sampleSession : Session :=
  construct 3 (some 1) "com.example.app" "0" 0 0 90 100 10001 5 false false

/-! ## Diagnostic dump -/

/-- One call the dump path makes: a `write(fd, text, size)` of a whole
`String8`, or `device->dump(fd, args)` with the status it returned. -/
inductive DumpCall where
  | write (fd : Int) (text : String)
  | deviceDump (fd : Int) (args : List String) (res : status_t)
  deriving DecidableEq, Repr

/-- What a dump method yields: its return value, the session after it, and the
calls it made, oldest first. -/
structure DumpOutcome where
  result : status_t
  session : Session
  calls : List DumpCall
  deriving DecidableEq, Repr

/-- The text this layer wrote: the texts of the `write` calls, in order. -/
def writtenText : List DumpCall → String
  | [] => ""
  | .write _ text :: cs => text ++ writtenText cs
  | .deviceDump _ _ _ :: cs => writtenText cs

/-- How many times `device->dump(fd, args)` was invoked. -/
def deviceDumpCalls (cs : List DumpCall) : Nat :=
  cs.countP fun c => match c with
    | .deviceDump _ _ _ => true
    | _ => false

/-- The text `needle` occurs inside the text `hay`. -/
def containsText (hay needle : String) : Prop :=
  needle.data <:+: hay.data

/-- The header `dumpClient` builds:
`appendFormat("Camera2ClientBase[%s] (%p) PID: %d, dump:\n", mCameraIdStr,
binder, mClientPid)` followed by `append("  State: ")`. The pointer printed is
that of the remote callback's binder, null when there is no remote callback;
`fmtPointer` is what `%p` prints for it. -/
def dumpHeader (s : Session) (fmtPointer : CallbackRef → String) : String :=
  "Camera2ClientBase[" ++ s.mCameraIdStr ++ "] (" ++ fmtPointer s.mRemoteCallback
    ++ ") PID: " ++ toString s.mClientPid ++ ", dump:\n" ++ "  State: "

/-- The unary minus of a 32-bit signed `int` (`status_t` is `int32_t`): the
negation reduced into the range from `-2147483648` to `2147483647` modulo
`2^32`, so that `-INT32_MIN` is `INT32_MIN` again. -/
def negInt32 (x : Int) : Int :=
  (-x + 2147483648) % 4294967296 - 2147483648

/-- The text `String8::format("   Error dumping device: %s (%d)",
strerror(-res), res)`; `strerror` is the C library's, and `-res` is the 32-bit
negation `negInt32 res`. -/
def dumpErrorText (strerror : Int → String) (res : status_t) : String :=
  "   Error dumping device: " ++ strerror (negInt32 res) ++ " (" ++ toString res ++ ")"

/-- Method `dumpDevice(fd, args)`. `dumpRes` is the status `device->dump(fd,
args)` returns when the code calls it. -/
def dumpDevice (s : Session) (fd : Int) (args : List String) (strerror : Int → String)
    (dumpRes : status_t) : DumpOutcome :=
  match s.mDevice with
  | none =>
    ⟨NO_ERROR, s, [DumpCall.write fd "  Device dump:\n",
                   DumpCall.write fd "  *** Device is detached\n"]⟩
  | some _ =>
    if dumpRes ≠ OK then
      ⟨NO_ERROR, s, [DumpCall.write fd "  Device dump:\n",
                     DumpCall.deviceDump fd args dumpRes,
                     DumpCall.write fd (dumpErrorText strerror dumpRes)]⟩
    else
      ⟨NO_ERROR, s, [DumpCall.write fd "  Device dump:\n",
                     DumpCall.deviceDump fd args dumpRes]⟩

/-- Method `dumpClient(fd, args)`: writes the header, then returns what
`dumpDevice(fd, args)` returns. -/
def dumpClient (s : Session) (fd : Int) (args : List String)
    (fmtPointer : CallbackRef → String) (strerror : Int → String) (dumpRes : status_t) :
    DumpOutcome :=
  ⟨(dumpDevice s fd args strerror dumpRes).result,
   (dumpDevice s fd args strerror dumpRes).session,
   DumpCall.write fd (dumpHeader s fmtPointer)
     :: (dumpDevice s fd args strerror dumpRes).calls⟩

/-- A `%p` rendering used in examples: `0x0` for the null pointer, `0x` and
the identity otherwise. -/
def samplePointerText : CallbackRef → String
  | none => "0x0"
  | some n => "0x" ++ toString n

/-- A `strerror` used in examples. -/
def sampleStrerror (e : Int) : String :=
  if e = 19 then "No such device" else "Unknown error"

/-- A `strerror` used in examples that shows the error number it was given. -/
def echoStrerror (e : Int) : String :=
  "Unknown error " ++ toString e

end Camera2ClientBase

/-! ## Properties -/

namespace Camera2ClientBase

/-! ### Shared facts about `disconnect` -/

/-- A `disconnect()` from a pid that is neither the owner nor the service
returns at once: same session, no collaborator call. -/
theorem disconnect_of_stranger (s : Session) (p : Int)
    (h : p ≠ s.mClientPid ∧ p ≠ s.mServicePid) :
    disconnect s p = ⟨BinderStatus.ok, s, []⟩ := by
  unfold disconnect
  simp [h]

/-- A `disconnect()` from the owner or the service runs the teardown path. -/
theorem disconnect_of_permitted (s : Session) (p : Int)
    (h : p = s.mClientPid ∨ p = s.mServicePid) :
    disconnect s p =
      ⟨BinderStatus.ok, basicClientDisconnect (detachDevice s).1,
        (if !s.mDisconnected then [Effect.cacheDump] else []) ++ (detachDevice s).2
          ++ [Effect.baseDisconnect]⟩ := by
  unfold disconnect
  have hn : ¬ (p ≠ s.mClientPid ∧ p ≠ s.mServicePid) := by
    rintro ⟨h1, h2⟩
    rcases h with h | h
    · exact h1 h
    · exact h2 h
  simp [hn]

/-- The method `detachDevice()` never changes a field of the session. -/
theorem detachDevice_session (s : Session) : (detachDevice s).1 = s := by
  unfold detachDevice
  cases s.mDevice <;> rfl

/-- The calls `detachDevice()` makes: one `mDevice->disconnect()` when the
handle is present, none otherwise. -/
theorem detachDevice_effects (s : Session) :
    (detachDevice s).2 = if s.mDevice.isSome then [Effect.deviceDisconnect] else [] := by
  unfold detachDevice
  cases s.mDevice <;> rfl

/-- The method `disconnect()` returns `binder::Status::ok()` on every path. -/
theorem disconnect_result (s : Session) (p : Int) :
    (disconnect s p).result = BinderStatus.ok := by
  unfold disconnect
  split <;> rfl

/-- A permitted `disconnect()` changes one field: `mDisconnected` becomes
true. -/
theorem disconnect_session_of_permitted (s : Session) (p : Int)
    (h : p = s.mClientPid ∨ p = s.mServicePid) :
    (disconnect s p).session = { s with mDisconnected := true } := by
  rw [disconnect_of_permitted s p h]
  simp [basicClientDisconnect, detachDevice_session]

/-- A permitted `disconnect()` on a session that holds a device handle calls
`mDevice->disconnect()` exactly once. -/
theorem disconnect_device_calls_of_permitted (s : Session) (p : Int) (d : Camera3Device)
    (h : p = s.mClientPid ∨ p = s.mServicePid) (hd : s.mDevice = some d) :
    Effect.deviceDisconnect ∈ (disconnect s p).effects ∧
    deviceDisconnectCalls (disconnect s p).effects = 1 := by
  rw [disconnect_of_permitted s p h]
  cases hdis : s.mDisconnected <;>
    simp [detachDevice_effects, deviceDisconnectCalls, hd, hdis]

/-! ### C1: repeated disconnect -/

/-- C1 as stated fails: on a session that holds a device handle, a second
`disconnect()` from the service pid returns success but calls
`mDevice->disconnect()` once more, so two disconnects make two device-handle
calls where one disconnect makes one. -/
theorem disconnect_twice_calls_device_twice :
    (disconnect sampleSession 5).result = BinderStatus.ok ∧
    (disconnect (disconnect sampleSession 5).session 5).result = BinderStatus.ok ∧
    deviceDisconnectCalls (disconnect sampleSession 5).effects = 1 ∧
    deviceDisconnectCalls ((disconnect sampleSession 5).effects ++
      (disconnect (disconnect sampleSession 5).session 5).effects) = 2 := by
  decide

/-- C1 as amended: for every session and every calling pid equal to the owning
pid or the service pid, after one `disconnect()` a further `disconnect()`
returns success, leaves every session field unchanged and makes no `cacheDump`
call; it calls `mDevice->disconnect()` once more when the session holds a
device handle and not at all when the handle is null. -/
theorem disconnect_repeat (s : Session) (p : Int)
    (h : p = s.mClientPid ∨ p = s.mServicePid) :
    (disconnect s p).result = BinderStatus.ok ∧
    (disconnect (disconnect s p).session p).result = BinderStatus.ok ∧
    (disconnect (disconnect s p).session p).session = (disconnect s p).session ∧
    cacheDumpCalls (disconnect (disconnect s p).session p).effects = 0 ∧
    deviceDisconnectCalls (disconnect (disconnect s p).session p).effects
      = (if s.mDevice.isSome then 1 else 0) := by
  have h1 := disconnect_of_permitted s p h
  have h2 : p = (disconnect s p).session.mClientPid ∨ p = (disconnect s p).session.mServicePid := by
    rw [h1, detachDevice_session]
    exact h
  have h3 := disconnect_of_permitted (disconnect s p).session p h2
  rw [h3, h1]
  refine ⟨rfl, rfl, ?_, ?_, ?_⟩
  · simp [detachDevice_session, basicClientDisconnect]
  · cases hd : s.mDevice <;>
      simp [cacheDumpCalls, basicClientDisconnect, detachDevice_session, detachDevice_effects, hd]
  · cases hd : s.mDevice <;>
      simp [deviceDisconnectCalls, basicClientDisconnect, detachDevice_session,
        detachDevice_effects, hd]

/-- C1, amended claim at a concrete input: the sample session (owner 100,
service 5, device handle present) disconnected twice by the service. -/
theorem disconnect_repeat_witness :
    (5 = sampleSession.mClientPid ∨ 5 = sampleSession.mServicePid) ∧
    (disconnect (disconnect sampleSession 5).session 5).session
      = (disconnect sampleSession 5).session ∧
    deviceDisconnectCalls (disconnect (disconnect sampleSession 5).session 5).effects = 1 :=
  ⟨by decide,
   (disconnect_repeat sampleSession 5 (by decide)).2.2.1,
   (disconnect_repeat sampleSession 5 (by decide)).2.2.2.2⟩

/-! ### C2: connect from a foreign pid -/

/-- C2: for every session whose owning pid is non-zero and every calling pid
different from it, `connect(client)` returns `BAD_VALUE`, makes no collaborator
call and leaves the session exactly as it was: the owning pid, the base remote
callback, the callback slot's target and every other field. -/
theorem connect_rejects_foreign_pid (s : Session) (p : Int) (client : CallbackRef)
    (h0 : s.mClientPid ≠ 0) (hp : p ≠ s.mClientPid) :
    (connect s p client).result = BAD_VALUE ∧
    (connect s p client).session = s ∧
    (connect s p client).effects = [] ∧
    (connect s p client).session.mClientPid = s.mClientPid ∧
    (connect s p client).session.mRemoteCallback = s.mRemoteCallback ∧
    (connect s p client).session.mSharedCameraCallbacks.mRemoteCallback
      = s.mSharedCameraCallbacks.mRemoteCallback := by
  have h : connect s p client = ⟨BAD_VALUE, s, []⟩ := by
    unfold connect
    simp [h0, hp]
  rw [h]
  exact ⟨rfl, rfl, rfl, rfl, rfl, rfl⟩

/-- C2 at a concrete input: the sample session is owned by pid 100; a
`connect` from pid 200 with a new callback is rejected and changes nothing. -/
theorem connect_rejects_foreign_pid_witness :
    sampleSession.mClientPid ≠ 0 ∧ (200 : Int) ≠ sampleSession.mClientPid ∧
    (connect sampleSession 200 (some 7)).result = BAD_VALUE ∧
    (connect sampleSession 200 (some 7)).session = sampleSession :=
  ⟨by decide, by decide,
   (connect_rejects_foreign_pid sampleSession 200 (some 7) (by decide) (by decide)).1,
   (connect_rejects_foreign_pid sampleSession 200 (some 7) (by decide) (by decide)).2.1⟩

/-! ### C3: who may disconnect -/

/-- C3: for every session and every calling pid `p`, `disconnect()` returns
success. If `p` is neither the owning pid nor the service pid, nothing happens:
no collaborator call at all (no `cacheDump`, no device-handle disconnect, no
base disconnect) and no field changed. If `p` is the owning pid or the service
pid, the device handle the session holds is told to disconnect (the calls are
`cacheDump` when not yet disconnected, then `detachDevice`, then the base
disconnect) and the session is marked disconnected. -/
theorem disconnect_permission (s : Session) (p : Int) :
    (disconnect s p).result = BinderStatus.ok ∧
    ((p ≠ s.mClientPid ∧ p ≠ s.mServicePid) →
      (disconnect s p).session = s ∧ (disconnect s p).effects = []) ∧
    ((p = s.mClientPid ∨ p = s.mServicePid) →
      (∀ d, s.mDevice = some d →
        Effect.deviceDisconnect ∈ (disconnect s p).effects ∧
        deviceDisconnectCalls (disconnect s p).effects = 1) ∧
      (disconnect s p).effects =
        (if !s.mDisconnected then [Effect.cacheDump] else []) ++ (detachDevice s).2
          ++ [Effect.baseDisconnect] ∧
      (disconnect s p).session.mDisconnected = true ∧
      (disconnect s p).session = { s with mDisconnected := true }) := by
  refine ⟨disconnect_result s p, ?_, ?_⟩
  · intro h
    rw [disconnect_of_stranger s p h]
    exact ⟨rfl, rfl⟩
  · intro h
    refine ⟨fun d hd => disconnect_device_calls_of_permitted s p d h hd, ?_, ?_,
      disconnect_session_of_permitted s p h⟩
    · rw [disconnect_of_permitted s p h]
    · rw [disconnect_session_of_permitted s p h]

/-- C3 at the input the claim names: owning pid 100, service pid 5, caller pid
200 gives success, the session untouched and `detachDevice` not invoked (no
device-handle disconnect); the owner (pid 100) has the device handle told to
disconnect once and the session marked disconnected. -/
theorem disconnect_permission_witness :
    ((200 : Int) ≠ sampleSession.mClientPid ∧ (200 : Int) ≠ sampleSession.mServicePid) ∧
    (disconnect sampleSession 200).result = BinderStatus.ok ∧
    ((disconnect sampleSession 200).session = sampleSession ∧
      (disconnect sampleSession 200).effects = []) ∧
    ((100 : Int) = sampleSession.mClientPid ∨ (100 : Int) = sampleSession.mServicePid) ∧
    deviceDisconnectCalls (disconnect sampleSession 100).effects = 1 ∧
    (disconnect sampleSession 100).session.mDisconnected = true :=
  ⟨by decide,
   (disconnect_permission sampleSession 200).1,
   (disconnect_permission sampleSession 200).2.1 (by decide),
   by decide,
   (((disconnect_permission sampleSession 100).2.2 (by decide)).1 _ rfl).2,
   ((disconnect_permission sampleSession 100).2.2 (by decide)).2.2.1⟩

/-! ### C4: connect from the owner -/

/-- C4: for every session whose owning pid is zero or equals the calling pid
`p`, `connect(cbA)` returns `OK`, sets the owning pid to `p` and sets both the
base remote callback and the callback slot's target to `cbA`, touching no other
field; a following `connect(cbB)` from `p` succeeds as well, after which both
callback holders equal `cbB` and, when `cbA` differs from `cbB`, no callback
field of the session holds `cbA`. -/
theorem connect_rebinds (s : Session) (p : Int) (cbA cbB : CallbackRef)
    (h : s.mClientPid = 0 ∨ s.mClientPid = p) :
    (connect s p cbA).result = OK ∧
    (connect s p cbA).session.mClientPid = p ∧
    (connect s p cbA).session.mRemoteCallback = cbA ∧
    (connect s p cbA).session.mSharedCameraCallbacks.mRemoteCallback = cbA ∧
    (connect s p cbA).session =
      { s with mClientPid := p, mRemoteCallback := cbA,
               mSharedCameraCallbacks := { mRemoteCallback := cbA } } ∧
    (connect (connect s p cbA).session p cbB).result = OK ∧
    (connect (connect s p cbA).session p cbB).session.mClientPid = p ∧
    (connect (connect s p cbA).session p cbB).session.mRemoteCallback = cbB ∧
    (connect (connect s p cbA).session p cbB).session.mSharedCameraCallbacks.mRemoteCallback
      = cbB ∧
    (cbA ≠ cbB → cbA ∉ (connect (connect s p cbA).session p cbB).session.callbackHolders) := by
  have hn : ¬ (s.mClientPid ≠ 0 ∧ p ≠ s.mClientPid) := by
    rintro ⟨h1, h2⟩
    rcases h with h | h
    · exact h1 h
    · exact h2 h.symm
  have e1 : connect s p cbA =
      ⟨OK, { s with mClientPid := p, mRemoteCallback := cbA,
                    mSharedCameraCallbacks := { mRemoteCallback := cbA } }, []⟩ := by
    unfold connect
    simp [hn, SharedCameraCallbacks.assign]
  have e2 : connect (connect s p cbA).session p cbB =
      ⟨OK, { (connect s p cbA).session with
                mClientPid := p, mRemoteCallback := cbB,
                mSharedCameraCallbacks := { mRemoteCallback := cbB } }, []⟩ := by
    rw [e1]
    unfold connect
    simp [SharedCameraCallbacks.assign]
  rw [e2, e1]
  refine ⟨rfl, rfl, rfl, rfl, rfl, rfl, rfl, rfl, rfl, ?_⟩
  intro hne
  simp [Session.callbackHolders, hne]

/-- C4 at a concrete input: the owner (pid 100) of the sample session connects
callback 7 and then callback 8; both calls succeed and both holders end
at callback 8. -/
theorem connect_rebinds_witness :
    (sampleSession.mClientPid = 0 ∨ sampleSession.mClientPid = 100) ∧
    (connect sampleSession 100 (some 7)).result = OK ∧
    (connect (connect sampleSession 100 (some 7)).session 100 (some 8)).result = OK ∧
    (connect (connect sampleSession 100 (some 7)).session 100 (some 8)).session.callbackHolders
      = [some 8, some 8] :=
  ⟨by decide,
   (connect_rebinds sampleSession 100 (some 7) (some 8) (by decide)).1,
   (connect_rebinds sampleSession 100 (some 7) (some 8) (by decide)).2.2.2.2.2.1,
   by
    have h := connect_rebinds sampleSession 100 (some 7) (some 8) (by decide)
    simp only [Session.callbackHolders, h.2.2.2.2.2.2.2.1, h.2.2.2.2.2.2.2.2.1]⟩

/-! ### C5: telemetry follows the edges of `mDeviceActive` -/

/-- What one `notifyActive()` contributes: one "active" event exactly when
`mDeviceActive` goes from false to true, and never an "idle" event. -/
theorem notifyActive_counts (s : Session) (r : status_t) :
    logActiveCalls (notifyActive s r).effects
      = (if s.mDeviceActive = false ∧ (notifyActive s r).session.mDeviceActive = true
          then 1 else 0) ∧
    logIdleCalls (notifyActive s r).effects = 0 ∧
    ¬ (s.mDeviceActive = true ∧ (notifyActive s r).session.mDeviceActive = false) := by
  unfold notifyActive
  cases ha : s.mDeviceActive
  · by_cases hr : r = OK
    · simp [hr, logActiveCalls, logIdleCalls]
    · simp [hr, ha, logActiveCalls, logIdleCalls]
  · simp [logActiveCalls, logIdleCalls]

/-- What one `notifyIdle(..)` contributes: one "idle" event exactly when
`mDeviceActive` goes from true to false, and never an "active" event. -/
theorem notifyIdle_counts (s : Session) (a b : Int) (c : Bool) (d : List CameraStreamStats)
    (r : status_t) :
    logIdleCalls (notifyIdle s a b c d r).effects
      = (if s.mDeviceActive = true ∧ (notifyIdle s a b c d r).session.mDeviceActive = false
          then 1 else 0) ∧
    logActiveCalls (notifyIdle s a b c d r).effects = 0 ∧
    ¬ (s.mDeviceActive = false ∧ (notifyIdle s a b c d r).session.mDeviceActive = true) := by
  unfold notifyIdle
  cases ha : s.mDeviceActive <;> simp [logActiveCalls, logIdleCalls]

/-- The "active" events of two lists of effects add up. -/
theorem logActiveCalls_append (xs ys : List Effect) :
    logActiveCalls (xs ++ ys) = logActiveCalls xs + logActiveCalls ys := by
  simp [logActiveCalls, List.countP_append]

/-- The "idle" events of two lists of effects add up. -/
theorem logIdleCalls_append (xs ys : List Effect) :
    logIdleCalls (xs ++ ys) = logIdleCalls xs + logIdleCalls ys := by
  simp [logIdleCalls, List.countP_append]

/-- C5: for every sequence of `notifyActive`/`notifyIdle` calls and every
outcome of the start/finish accounting calls, from any session (a fresh, idle
one in particular), the number of "active" telemetry events equals the number
of calls on which `mDeviceActive` changes from false to true, and the number of
"idle" events equals the number of calls on which it changes from true to
false. -/
theorem telemetry_counts_edges (s : Session) (calls : List ActivityCall) :
    logActiveCalls (runActivity s calls).2 = risingEdges s calls ∧
    logIdleCalls (runActivity s calls).2 = fallingEdges s calls := by
  induction calls generalizing s with
  | nil => exact ⟨rfl, rfl⟩
  | cons c cs ih =>
    obtain ⟨ihA, ihI⟩ := ih (c.apply s).1
    simp only [runActivity, risingEdges, fallingEdges, logActiveCalls_append,
      logIdleCalls_append, ihA, ihI]
    cases c with
    | active r =>
      obtain ⟨h1, h2, h3⟩ := notifyActive_counts s r
      simp only [ActivityCall.apply, h1, h2, if_neg h3]
      exact ⟨trivial, trivial⟩
    | idle a b c d r =>
      obtain ⟨h1, h2, h3⟩ := notifyIdle_counts s a b c d r
      simp only [ActivityCall.apply, h1, h2, if_neg h3]
      exact ⟨trivial, trivial⟩

/-- C5 at the input the claim names: on a freshly constructed session,
`notifyActive()` twice in a row with the accounting call succeeding fires
exactly one "active" event (and the sequence has exactly one idle-to-active
edge). -/
theorem telemetry_counts_edges_witness :
    logActiveCalls
      (runActivity sampleSession [ActivityCall.active OK, ActivityCall.active OK]).2 = 1 ∧
    risingEdges sampleSession [ActivityCall.active OK, ActivityCall.active OK] = 1 :=
  ⟨(telemetry_counts_edges sampleSession
      [ActivityCall.active OK, ActivityCall.active OK]).1.trans (by decide),
   by decide⟩

/-! ### C6: the outcomes of initialize -/

/-- A history counts as "sink registered" exactly when it holds an
`mDevice->setNotifyCallback(..)` call. -/
theorem sinkRegistered_iff (t : List Effect) :
    sinkRegistered t = true ↔ ∃ r, Effect.setNotifyCallback r ∈ t := by
  unfold sinkRegistered
  rw [List.any_eq_true]
  constructor
  · rintro ⟨e, he, h⟩
    cases e <;> simp at h
    exact ⟨_, he⟩
  · rintro ⟨r, hr⟩
    exact ⟨_, hr, rfl⟩

/-- C6: for every session and every outcome of the collaborators, initialize
returns the status of `startCameraOps` unchanged if it is not `OK`, with no
device-handle call made and no field changed; otherwise `NO_INIT` if the
device handle is null, again with no device-handle call; otherwise the status
of the device's initialize unchanged if it is not `OK`, with no notification
sink registered; otherwise it registers the session as the device's
notification sink exactly once and returns `OK`, whatever status `cbRes` the
registration call reports. -/
theorem initializeImpl_outcomes (s : Session) (opsRes devRes cbRes : status_t) :
    (opsRes ≠ OK →
      (initializeImpl s opsRes devRes cbRes).result = opsRes ∧
      (initializeImpl s opsRes devRes cbRes).session = s ∧
      ∀ e ∈ (initializeImpl s opsRes devRes cbRes).effects, e.onDevice = false) ∧
    (opsRes = OK → s.mDevice = none →
      (initializeImpl s opsRes devRes cbRes).result = NO_INIT ∧
      ∀ e ∈ (initializeImpl s opsRes devRes cbRes).effects, e.onDevice = false) ∧
    (opsRes = OK → s.mDevice ≠ none → devRes ≠ OK →
      (initializeImpl s opsRes devRes cbRes).result = devRes ∧
      sinkRegistered (initializeImpl s opsRes devRes cbRes).effects = false) ∧
    (opsRes = OK → s.mDevice ≠ none → devRes = OK →
      (initializeImpl s opsRes devRes cbRes).result = OK ∧
      (initializeImpl s opsRes devRes cbRes).effects =
        [Effect.startCameraOps OK, Effect.deviceInitialize OK,
         Effect.setNotifyCallback cbRes] ∧
      (initializeImpl s opsRes devRes cbRes).session = s) := by
  refine ⟨?_, ?_, ?_, ?_⟩
  · intro h
    unfold initializeImpl
    simp [h, Effect.onDevice]
  · intro h hd
    unfold initializeImpl
    simp [h, hd, Effect.onDevice]
  · intro h hd hr
    unfold initializeImpl
    cases hdev : s.mDevice with
    | none => exact absurd hdev hd
    | some d => simp [h, hr, sinkRegistered]
  · intro h hd hr
    unfold initializeImpl
    cases hdev : s.mDevice with
    | none => exact absurd hdev hd
    | some d => simp [h, hr]

/-- C6 at concrete inputs, one for each case: on the sample session a failing
`startCameraOps` (status -1) is returned as is; on the sample session with a
null device handle the result is `NO_INIT`; a failing device initialize
(status -32) is returned as is; with
accounting and device initialize succeeding the result is `OK` even though the
registration call reports status -38. -/
theorem initializeImpl_outcomes_witness :
    ((-1 : status_t) ≠ OK ∧ (initializeImpl sampleSession (-1) OK OK).result = -1) ∧
    (({ sampleSession with mDevice := none } : Session).mDevice = none ∧
      (initializeImpl { sampleSession with mDevice := none } OK OK OK).result = NO_INIT) ∧
    ((-32 : status_t) ≠ OK ∧ (initializeImpl sampleSession OK (-32) OK).result = -32) ∧
    (sampleSession.mDevice ≠ none ∧ (initializeImpl sampleSession OK OK (-38)).result = OK) :=
  ⟨⟨by decide, ((initializeImpl_outcomes sampleSession (-1) OK OK).1 (by decide)).1⟩,
   ⟨rfl,
    ((initializeImpl_outcomes { sampleSession with mDevice := none } OK OK OK).2.1 rfl rfl).1⟩,
   ⟨by decide,
    ((initializeImpl_outcomes sampleSession OK (-32) OK).2.2.1 rfl (by decide) (by decide)).1⟩,
   ⟨by decide,
    ((initializeImpl_outcomes sampleSession OK OK (-38)).2.2.2 rfl (by decide) rfl).1⟩⟩

/-! ### C7: destruction -/

/-- C7 as stated fails: the sample session (owner 100, service 5, device
handle present) destroyed in a calling context with pid 200 has its
destruction-started flag set, but the `disconnect()` it calls returns at the
pid test: the device handle is never told to disconnect. -/
theorem destroy_from_stranger_skips_device :
    sampleSession.mDevice ≠ none ∧
    (destroy sampleSession 200).session.mDestructionStarted = true ∧
    (destroy sampleSession 200).session.mDisconnected = false ∧
    deviceDisconnectCalls (destroy sampleSession 200).effects = 0 ∧
    (destroy sampleSession 200).effects = [] := by
  decide

/-- C7 as amended: for every session and every calling pid `p`, destruction
first sets the destruction-started flag and then calls `disconnect()`. When
`p` is the owning pid or the service pid, the device handle the session holds
has been told to disconnect by the time destruction completes and the session
is marked disconnected; when `p` is neither, the `disconnect()` is a no-op and
no collaborator is called. -/
theorem destroy_disconnects_when_permitted (s : Session) (p : Int) :
    destroy s p = disconnect { s with mDestructionStarted := true } p ∧
    (destroy s p).result = BinderStatus.ok ∧
    (destroy s p).session.mDestructionStarted = true ∧
    ((p = s.mClientPid ∨ p = s.mServicePid) →
      (∀ d, s.mDevice = some d → deviceDisconnectCalls (destroy s p).effects = 1) ∧
      (destroy s p).session.mDisconnected = true) ∧
    ((p ≠ s.mClientPid ∧ p ≠ s.mServicePid) →
      (destroy s p).effects = [] ∧
      (destroy s p).session = { s with mDestructionStarted := true }) := by
  refine ⟨rfl, disconnect_result _ p, ?_, ?_, ?_⟩
  · unfold destroy disconnect
    split
    · rfl
    · simp [basicClientDisconnect, detachDevice_session]
  · intro h
    refine ⟨fun d hd => ?_, ?_⟩
    · exact (disconnect_device_calls_of_permitted { s with mDestructionStarted := true } p d
        h hd).2
    · unfold destroy
      rw [disconnect_session_of_permitted { s with mDestructionStarted := true } p h]
  · intro h
    unfold destroy
    rw [disconnect_of_stranger { s with mDestructionStarted := true } p h]
    exact ⟨rfl, rfl⟩

/-- C7, amended claim at a concrete input: the sample session destroyed in the
service's own context (pid 5) has its device handle told to disconnect
once. -/
theorem destroy_disconnects_when_permitted_witness :
    ((5 : Int) = sampleSession.mClientPid ∨ (5 : Int) = sampleSession.mServicePid) ∧
    deviceDisconnectCalls (destroy sampleSession 5).effects = 1 ∧
    (destroy sampleSession 5).session.mDisconnected = true :=
  ⟨by decide,
   ((destroy_disconnects_when_permitted sampleSession 5).2.2.2.1 (by decide)).1 _ rfl,
   ((destroy_disconnects_when_permitted sampleSession 5).2.2.2.1 (by decide)).2⟩

/-! ### C8: a failed start of stream accounting -/

/-- C8: for every session in the idle state, if `startCameraStreamingOps`
returns a status `res` other than `OK`, `notifyActive()` returns exactly `res`,
leaves `mDeviceActive` false (no field changes) and emits no "active"
telemetry event; a following `notifyActive()` makes the accounting call
again, whatever it then returns. -/
theorem notifyActive_failure (s : Session) (res : status_t)
    (hidle : s.mDeviceActive = false) (hres : res ≠ OK) :
    (notifyActive s res).result = res ∧
    (notifyActive s res).session = s ∧
    (notifyActive s res).session.mDeviceActive = false ∧
    logActiveCalls (notifyActive s res).effects = 0 ∧
    (notifyActive s res).effects = [Effect.startCameraStreamingOps res] ∧
    ∀ res2 : status_t,
      Effect.startCameraStreamingOps res2
        ∈ (notifyActive (notifyActive s res).session res2).effects := by
  have h : notifyActive s res = ⟨res, s, [Effect.startCameraStreamingOps res]⟩ := by
    unfold notifyActive
    simp [hidle, hres]
  rw [h]
  refine ⟨rfl, rfl, hidle, by simp [logActiveCalls], rfl, ?_⟩
  intro res2
  unfold notifyActive
  by_cases h2 : res2 = OK <;> simp [hidle, h2]

/-- C8 at a concrete input: on the fresh sample session the accounting call
fails with status -1; `notifyActive()` returns -1 and the session stays idle,
and a second `notifyActive()` whose accounting call succeeds turns it
active. -/
theorem notifyActive_failure_witness :
    sampleSession.mDeviceActive = false ∧ (-1 : status_t) ≠ OK ∧
    (notifyActive sampleSession (-1)).result = -1 ∧
    (notifyActive sampleSession (-1)).session.mDeviceActive = false ∧
    (notifyActive (notifyActive sampleSession (-1)).session OK).session.mDeviceActive = true :=
  ⟨by decide, by decide,
   (notifyActive_failure sampleSession (-1) (by decide) (by decide)).1,
   (notifyActive_failure sampleSession (-1) (by decide) (by decide)).2.2.1,
   by decide⟩

/-! ### C9: `mDeviceActive` and the device handle -/

/-- A history counts as "device initialized" exactly when it holds an
`mDevice->initialize(..)` call that returned `OK`. -/
theorem deviceInitialized_iff (t : List Effect) :
    deviceInitialized t = true ↔ Effect.deviceInitialize OK ∈ t := by
  simp [deviceInitialized]

/-- No notification handler touches `mDevice`, and none calls the device
handle. -/
theorem deliver_frame (s : Session) (n : Notification) :
    (deliver s n).1 = { s with mDeviceActive := (deliver s n).1.mDeviceActive } ∧
    ∀ e ∈ (deliver s n).2, e.onDevice = false := by
  cases n with
  | active r =>
    simp only [deliver, notifyActive]
    cases s.mDeviceActive <;> by_cases hr : r = OK <;> simp [hr, Effect.onDevice]
  | idle a b c d r =>
    simp only [deliver, notifyIdle]
    cases s.mDeviceActive <;> simp [Effect.onDevice]
  | _ => exact ⟨rfl, by simp [deliver, notifyError, notifyShutter, notifyAutoFocus,
      notifyAutoExposure, notifyAutoWhitebalance, notifyPrepared, notifyRequestQueueEmpty,
      notifyRepeatingRequestError]⟩

/-- No operation assigns `mDevice`. -/
theorem step_mDevice (w : World) (op : Op) :
    (step w op).session.mDevice = w.session.mDevice := by
  cases op with
  | init a b c =>
    simp only [step, initializeImpl]
    split
    · rfl
    · split
      · rfl
      · split <;> rfl
  | connect p cb =>
    simp only [step, connect]
    split <;> rfl
  | disconnect p =>
    simp only [step, disconnect]
    split
    · rfl
    · simp [basicClientDisconnect, detachDevice_session]
  | checkPid p =>
    simp only [step, checkPid]
    split <;> rfl
  | notify n =>
    simp only [step]
    rw [(deliver_frame w.session n).1]

/-- Every operation only appends to the history. -/
theorem step_trace (w : World) (op : Op) : ∃ es, (step w op).trace = w.trace ++ es := by
  cases op <;> exact ⟨_, rfl⟩

/-- Once registered as the sink, always registered. -/
theorem sinkRegistered_step (w : World) (op : Op) (h : sinkRegistered w.trace = true) :
    sinkRegistered (step w op).trace = true := by
  obtain ⟨es, he⟩ := step_trace w op
  rw [he]
  unfold sinkRegistered at h ⊢
  rw [List.any_append, h]
  rfl

/-- The sink is registered only by an initialize whose device initialize
returned `OK`: registration in the history implies a successful device
initialize in the history, and every operation keeps that. -/
theorem step_registered_initialized (w : World) (op : Op)
    (h : sinkRegistered w.trace = true → deviceInitialized w.trace = true) :
    sinkRegistered (step w op).trace = true → deviceInitialized (step w op).trace = true := by
  have keep : ∀ es : List Effect, (∀ r, Effect.setNotifyCallback r ∉ es) →
      sinkRegistered (w.trace ++ es) = true → deviceInitialized (w.trace ++ es) = true := by
    intro es hes hreg
    rw [sinkRegistered_iff] at hreg
    obtain ⟨r, hr⟩ := hreg
    rw [List.mem_append] at hr
    rcases hr with hr | hr
    · have := h ((sinkRegistered_iff _).2 ⟨r, hr⟩)
      rw [deviceInitialized_iff] at this ⊢
      exact List.mem_append_left _ this
    · exact absurd hr (hes r)
  cases op with
  | init a b c =>
    simp only [step, initializeImpl]
    split
    · exact keep _ (by simp)
    · split
      · exact keep _ (by simp)
      · split
        · exact keep _ (by simp)
        · rename_i hb
          have hb2 : b = OK := not_not.mp hb
          intro _
          rw [deviceInitialized_iff, hb2]
          simp
  | connect p cb =>
    simp only [step, connect]
    split <;> exact keep _ (by simp)
  | disconnect p =>
    simp only [step, disconnect]
    split
    · exact keep _ (by simp)
    · refine keep _ ?_
      intro r
      cases s_dis : w.session.mDisconnected <;>
        cases s_dev : w.session.mDevice <;> simp [detachDevice, s_dev]
  | checkPid p =>
    simp only [step, checkPid]
    split <;> exact keep _ (by simp)
  | notify n =>
    simp only [step]
    refine keep _ ?_
    intro r hr
    have := (deliver_frame w.session n).2 _ hr
    simp [Effect.onDevice] at this

/-- When `notifyActive()` is only delivered to a registered sink, an active
session has been registered, and every operation keeps that. -/
theorem step_active_registered (w : World) (op : Op)
    (hop : ∀ n, op = Op.notify n → n.isActive = true → sinkRegistered w.trace = true)
    (h : w.session.mDeviceActive = true → sinkRegistered w.trace = true) :
    (step w op).session.mDeviceActive = true → sinkRegistered (step w op).trace = true := by
  intro hact
  cases op with
  | init a b c =>
    by_cases hreg : sinkRegistered w.trace = true
    · exact sinkRegistered_step w _ hreg
    · refine sinkRegistered_step w _ (h ?_)
      revert hact
      simp only [step, initializeImpl]
      split
      · exact id
      · split
        · exact id
        · split <;> exact id
  | connect p cb =>
    refine sinkRegistered_step w _ (h ?_)
    revert hact
    simp only [step, connect]
    split <;> exact id
  | disconnect p =>
    refine sinkRegistered_step w _ (h ?_)
    revert hact
    simp only [step, disconnect]
    split
    · exact id
    · simp [basicClientDisconnect, detachDevice_session]
  | checkPid p =>
    refine sinkRegistered_step w _ (h ?_)
    revert hact
    simp only [step, checkPid]
    split <;> exact id
  | notify n =>
    cases n with
    | active r => exact sinkRegistered_step w _ (hop _ rfl rfl)
    | idle a b c d r =>
      exfalso
      revert hact
      simp only [step, deliver, notifyIdle]
      split <;> simp
    | _ =>
      refine sinkRegistered_step w _ (h ?_)
      exact hact

/-- The invariants of C9 along a whole run. -/
theorem run_invariants (w : World) (ops : List Op)
    (hdev : w.session.mDevice ≠ none)
    (hreg : sinkRegistered w.trace = true → deviceInitialized w.trace = true) :
    (run w ops).session.mDevice ≠ none ∧
    (activeOnlyFromSink w ops = true →
      (w.session.mDeviceActive = true → sinkRegistered w.trace = true) →
      (run w ops).session.mDeviceActive = true → deviceInitialized (run w ops).trace = true) := by
  induction ops generalizing w with
  | nil =>
    exact ⟨hdev, fun _ hact h => hreg (hact h)⟩
  | cons op ops ih =>
    have hdev2 : (step w op).session.mDevice ≠ none := by
      rw [step_mDevice]
      exact hdev
    obtain ⟨ih1, ih2⟩ := ih (step w op) hdev2 (step_registered_initialized w op hreg)
    refine ⟨ih1, ?_⟩
    intro hsink hact
    have hrest : activeOnlyFromSink (step w op) ops = true := by
      cases op <;> simp_all [activeOnlyFromSink]
    have hop : ∀ n, op = Op.notify n → n.isActive = true → sinkRegistered w.trace = true := by
      intro n hn hna
      subst hn
      simp_all [activeOnlyFromSink]
    exact ih2 hrest (step_active_registered w op hop hact)

/-- C9 as stated fails: from construction, one `notifyActive()` whose
accounting call succeeds makes `mDeviceActive` true although the device handle
was never initialized; the same holds after an initialize whose device
initialize failed with status -19. -/
theorem active_without_initialized_device :
    IsConstructed sampleSession ∧
    (run (World.opened sampleSession) [Op.notify (Notification.active OK)]).session.mDeviceActive
      = true ∧
    deviceInitialized
      (run (World.opened sampleSession) [Op.notify (Notification.active OK)]).trace = false ∧
    (run (World.opened sampleSession)
      [Op.init OK (-19) OK, Op.notify (Notification.active OK)]).session.mDeviceActive = true ∧
    deviceInitialized
      (run (World.opened sampleSession)
        [Op.init OK (-19) OK, Op.notify (Notification.active OK)]).trace = false :=
  ⟨⟨3, some 1, "com.example.app", "0", 0, 0, 90, 100, 10001, 5, false, false, rfl⟩,
   by decide, by decide, by decide, by decide⟩

/-- C9 as amended: in every state reachable from construction by any sequence
of the session's operations, the device handle is non-null (so `mDeviceActive`
true implies it is); and if every `notifyActive()` of the sequence is
delivered after the session was registered as the device's notification sink,
`mDeviceActive` true implies that the device handle has been successfully
initialized. -/
theorem active_implies_device (s : Session) (ops : List Op) (hs : IsConstructed s) :
    (run (World.opened s) ops).session.mDevice ≠ none ∧
    ((run (World.opened s) ops).session.mDeviceActive = true →
      (run (World.opened s) ops).session.mDevice ≠ none) ∧
    (activeOnlyFromSink (World.opened s) ops = true →
      (run (World.opened s) ops).session.mDeviceActive = true →
      deviceInitialized (run (World.opened s) ops).trace = true) := by
  obtain ⟨dv, cb, pkg, cam, api, facing, orient, pid, uid, spid, perf, legacy, rfl⟩ := hs
  have hdev : (World.opened (construct dv cb pkg cam api facing orient pid uid spid perf
      legacy)).session.mDevice ≠ none := by
    simp [World.opened, construct]
  have hreg : sinkRegistered (World.opened (construct dv cb pkg cam api facing orient pid uid
      spid perf legacy)).trace = true →
      deviceInitialized (World.opened (construct dv cb pkg cam api facing orient pid uid spid
        perf legacy)).trace = true := by
    simp [World.opened, sinkRegistered]
  obtain ⟨h1, h2⟩ := run_invariants _ ops hdev hreg
  refine ⟨h1, fun _ => h1, fun hsink => h2 hsink ?_⟩
  simp [World.opened, construct]

/-- C9, amended claim at a concrete input: the sample session is initialized
successfully, then told it is active; it is active, its handle is non-null and
the handle has been initialized. -/
theorem active_implies_device_witness :
    IsConstructed sampleSession ∧
    activeOnlyFromSink (World.opened sampleSession)
      [Op.init OK OK OK, Op.notify (Notification.active OK)] = true ∧
    (run (World.opened sampleSession)
      [Op.init OK OK OK, Op.notify (Notification.active OK)]).session.mDeviceActive = true ∧
    deviceInitialized (run (World.opened sampleSession)
      [Op.init OK OK OK, Op.notify (Notification.active OK)]).trace = true :=
  ⟨⟨3, some 1, "com.example.app", "0", 0, 0, 90, 100, 10001, 5, false, false, rfl⟩,
   by decide, by decide,
   (active_implies_device sampleSession [Op.init OK OK OK, Op.notify (Notification.active OK)]
      ⟨3, some 1, "com.example.app", "0", 0, 0, 90, 100, 10001, 5, false, false, rfl⟩).2.2
      (by decide) (by decide)⟩

/-! ### C10: notifications after disconnect -/

/-- C10 as stated fails: the sample session is disconnected by its owner (pid
100) and is then told it is active. The handler does not look at
`mDisconnected`: it makes the accounting call, emits the "active" telemetry
event and sets `mDeviceActive`; a following idle notification makes the finish
accounting call, emits the "idle" event and clears `mDeviceActive`. -/
theorem late_activity_is_not_dropped :
    (disconnect sampleSession 100).session.mDisconnected = true ∧
    (disconnect sampleSession 100).session.mDeviceActive = false ∧
    (deliver (disconnect sampleSession 100).session (Notification.active OK)).1.mDeviceActive
      = true ∧
    (deliver (disconnect sampleSession 100).session (Notification.active OK)).2
      = [Effect.startCameraStreamingOps OK, Effect.logActive "0"] ∧
    (deliver (deliver (disconnect sampleSession 100).session (Notification.active OK)).1
      (Notification.idle 4 0 false [] OK)).2
      = [Effect.finishCameraStreamingOps OK, Effect.logIdle "0" 4 0 false []] := by
  decide

/-- C10 as amended: for every session on which a permitted `disconnect()` has
completed and every notification of the fixed set delivered afterwards, the
handler completes, makes no device-handle call, changes no field other than
`mDeviceActive` and leaves the session marked disconnected. The eight
diagnostic notifications (error, shutter, autofocus, auto-exposure,
auto-white-balance, prepared, request-queue-empty, repeating-request-stopped)
change no field at all and make no collaborator call. The active and idle
notifications are handled as on a live session: active on an idle session
makes the start accounting call and, when that returns `OK`, emits the "active"
event and sets `mDeviceActive`; idle on an active session makes the finish
accounting call, emits the "idle" event and clears `mDeviceActive`; active on
an active session and idle on an idle session do nothing. -/
theorem late_notifications (s : Session) (p : Int) (n : Notification)
    (hp : p = s.mClientPid ∨ p = s.mServicePid) :
    (disconnect s p).session.mDisconnected = true ∧
    (deliver (disconnect s p).session n).1.mDisconnected = true ∧
    (deliver (disconnect s p).session n).1 =
      { (disconnect s p).session with
          mDeviceActive := (deliver (disconnect s p).session n).1.mDeviceActive } ∧
    (∀ e ∈ (deliver (disconnect s p).session n).2, e.onDevice = false) ∧
    (n.isDiagnostic = true →
      deliver (disconnect s p).session n = ((disconnect s p).session, [])) ∧
    (∀ r, n = Notification.active r →
      ((disconnect s p).session.mDeviceActive = true →
        deliver (disconnect s p).session n = ((disconnect s p).session, [])) ∧
      ((disconnect s p).session.mDeviceActive = false →
        (deliver (disconnect s p).session n).1.mDeviceActive = decide (r = OK) ∧
        (deliver (disconnect s p).session n).2 =
          Effect.startCameraStreamingOps r ::
            (if r = OK then [Effect.logActive s.mCameraIdStr] else []))) ∧
    (∀ a b c d r, n = Notification.idle a b c d r →
      ((disconnect s p).session.mDeviceActive = false →
        deliver (disconnect s p).session n = ((disconnect s p).session, [])) ∧
      ((disconnect s p).session.mDeviceActive = true →
        (deliver (disconnect s p).session n).1.mDeviceActive = false ∧
        (deliver (disconnect s p).session n).2 =
          [Effect.finishCameraStreamingOps r, Effect.logIdle s.mCameraIdStr a b c d])) := by
  have hd : (disconnect s p).session = { s with mDisconnected := true } :=
    disconnect_session_of_permitted s p hp
  have hfr := deliver_frame (disconnect s p).session n
  refine ⟨by rw [hd], ?_, hfr.1, hfr.2, ?_, ?_, ?_⟩
  · rw [hfr.1, hd]
  · intro hn
    cases n <;> first | rfl | simp [Notification.isDiagnostic] at hn
  · intro r hn
    subst hn
    rw [hd]
    refine ⟨?_, ?_⟩
    · intro ha
      have ha2 : s.mDeviceActive = true := ha
      simp [deliver, notifyActive, ha2]
    · intro ha
      have ha2 : s.mDeviceActive = false := ha
      by_cases hr : r = OK <;> simp [deliver, notifyActive, ha2, hr]
  · intro a b c d r hn
    subst hn
    rw [hd]
    refine ⟨?_, ?_⟩
    · intro ha
      have ha2 : s.mDeviceActive = false := ha
      simp [deliver, notifyIdle, ha2]
    · intro ha
      have ha2 : s.mDeviceActive = true := ha
      simp [deliver, notifyIdle, ha2]

/-- C10, amended claim at a concrete input: after the owner has disconnected
the sample session, a shutter notification changes nothing and calls no
collaborator. -/
theorem late_notifications_witness :
    ((100 : Int) = sampleSession.mClientPid ∨ (100 : Int) = sampleSession.mServicePid) ∧
    deliver (disconnect sampleSession 100).session (Notification.shutter ⟨12⟩ 1000)
      = ((disconnect sampleSession 100).session, []) :=
  ⟨by decide,
   (late_notifications sampleSession 100 (Notification.shutter ⟨12⟩ 1000)
      (by decide)).2.2.2.2.1 rfl⟩

/-! ### C11: the diagnostic dump -/

/-- A text found in the right part of a concatenation is found in the
whole. -/
theorem containsText_append_right (a b needle : String) (h : containsText b needle) :
    containsText (a ++ b) needle := by
  obtain ⟨u, v, huv⟩ := h
  refine ⟨a.data ++ u, v, ?_⟩
  simp only [String.data_append, List.append_assoc] at huv ⊢
  rw [huv]

/-- A text found in the left part of a concatenation is found in the
whole. -/
theorem containsText_append_left (a b needle : String) (h : containsText a needle) :
    containsText (a ++ b) needle := by
  obtain ⟨u, v, huv⟩ := h
  refine ⟨u, v ++ b.data, ?_⟩
  simp only [String.data_append, List.append_assoc] at huv ⊢
  rw [← huv]
  simp only [List.append_assoc]

/-- Every text contains itself. -/
theorem containsText_self (a : String) : containsText a a :=
  ⟨[], [], by simp⟩

/-- The 32-bit negation is the plain negation on every status except
`INT32_MIN`, whose negation does not fit and wraps to `INT32_MIN` itself. -/
theorem negInt32_eq (x : Int) (hlo : -2147483648 ≤ x) (hhi : x ≤ 2147483647) :
    negInt32 x = if x = -2147483648 then -2147483648 else -x := by
  unfold negInt32
  split <;> omega

/-- The header names the camera id string and the owning pid. -/
theorem dumpHeader_contains (s : Session) (fmtPointer : CallbackRef → String) :
    containsText (dumpHeader s fmtPointer) s.mCameraIdStr ∧
    containsText (dumpHeader s fmtPointer) (toString s.mClientPid) := by
  unfold dumpHeader
  constructor
  · iterate 6 apply containsText_append_left
    exact containsText_append_right _ _ _ (containsText_self _)
  · iterate 2 apply containsText_append_left
    exact containsText_append_right _ _ _ (containsText_self _)

/-- The dump of a session whose device handle is null. -/
theorem dumpClient_detached (s : Session) (fd : Int) (args : List String)
    (fmtPointer : CallbackRef → String) (strerror : Int → String) (dumpRes : status_t)
    (hdev : s.mDevice = none) :
    dumpClient s fd args fmtPointer strerror dumpRes =
      ⟨NO_ERROR, s,
        [DumpCall.write fd (dumpHeader s fmtPointer), DumpCall.write fd "  Device dump:\n",
         DumpCall.write fd "  *** Device is detached\n"]⟩ := by
  simp only [dumpClient, dumpDevice, hdev]

/-- The dump of a session whose device's dump returns `OK`. -/
theorem dumpClient_attached_ok (s : Session) (fd : Int) (args : List String)
    (fmtPointer : CallbackRef → String) (strerror : Int → String) (dumpRes : status_t)
    (hdev : s.mDevice ≠ none) (hr : dumpRes = OK) :
    dumpClient s fd args fmtPointer strerror dumpRes =
      ⟨NO_ERROR, s,
        [DumpCall.write fd (dumpHeader s fmtPointer), DumpCall.write fd "  Device dump:\n",
         DumpCall.deviceDump fd args dumpRes]⟩ := by
  cases h : s.mDevice with
  | none => exact absurd h hdev
  | some d => simp [dumpClient, dumpDevice, h, hr]

/-- The dump of a session whose device's dump returns a status other than
`OK`. -/
theorem dumpClient_attached_error (s : Session) (fd : Int) (args : List String)
    (fmtPointer : CallbackRef → String) (strerror : Int → String) (dumpRes : status_t)
    (hdev : s.mDevice ≠ none) (hr : dumpRes ≠ OK) :
    dumpClient s fd args fmtPointer strerror dumpRes =
      ⟨NO_ERROR, s,
        [DumpCall.write fd (dumpHeader s fmtPointer), DumpCall.write fd "  Device dump:\n",
         DumpCall.deviceDump fd args dumpRes,
         DumpCall.write fd (dumpErrorText strerror dumpRes)]⟩ := by
  cases h : s.mDevice with
  | none => exact absurd h hdev
  | some d => simp [dumpClient, dumpDevice, h, hr]

/-- C11: for every session state, argument list and device dump status,
`dumpClient` returns `NO_ERROR` and changes no field. Its output starts with the
header, which contains the camera id string and the owning pid, followed by the
"Device dump:" section line. If the device handle is null the section holds the
"*** Device is detached" marker and the device's dump is not invoked. If the
handle is present the device's dump is invoked exactly once, and a non-OK
status from it is appended as "Error dumping device" text instead of being
returned; the text carries `strerror` of the 32-bit negation of the status and
the status itself. -/
theorem dumpClient_output (s : Session) (fd : Int) (args : List String)
    (fmtPointer : CallbackRef → String) (strerror : Int → String) (dumpRes : status_t) :
    (dumpClient s fd args fmtPointer strerror dumpRes).result = NO_ERROR ∧
    (dumpClient s fd args fmtPointer strerror dumpRes).session = s ∧
    (∃ rest, (dumpClient s fd args fmtPointer strerror dumpRes).calls =
      DumpCall.write fd (dumpHeader s fmtPointer)
        :: DumpCall.write fd "  Device dump:\n" :: rest) ∧
    (∃ tail, writtenText (dumpClient s fd args fmtPointer strerror dumpRes).calls =
      dumpHeader s fmtPointer ++ ("  Device dump:\n" ++ tail)) ∧
    containsText (dumpHeader s fmtPointer) s.mCameraIdStr ∧
    containsText (dumpHeader s fmtPointer) (toString s.mClientPid) ∧
    (s.mDevice = none →
      (dumpClient s fd args fmtPointer strerror dumpRes).calls =
        [DumpCall.write fd (dumpHeader s fmtPointer), DumpCall.write fd "  Device dump:\n",
         DumpCall.write fd "  *** Device is detached\n"] ∧
      containsText (writtenText (dumpClient s fd args fmtPointer strerror dumpRes).calls)
        "*** Device is detached" ∧
      deviceDumpCalls (dumpClient s fd args fmtPointer strerror dumpRes).calls = 0) ∧
    (s.mDevice ≠ none →
      deviceDumpCalls (dumpClient s fd args fmtPointer strerror dumpRes).calls = 1 ∧
      (dumpRes = OK →
        (dumpClient s fd args fmtPointer strerror dumpRes).calls =
          [DumpCall.write fd (dumpHeader s fmtPointer), DumpCall.write fd "  Device dump:\n",
           DumpCall.deviceDump fd args dumpRes]) ∧
      (dumpRes ≠ OK →
        (dumpClient s fd args fmtPointer strerror dumpRes).calls =
          [DumpCall.write fd (dumpHeader s fmtPointer), DumpCall.write fd "  Device dump:\n",
           DumpCall.deviceDump fd args dumpRes,
           DumpCall.write fd (dumpErrorText strerror dumpRes)] ∧
        containsText (dumpErrorText strerror dumpRes) "Error dumping device" ∧
        (dumpClient s fd args fmtPointer strerror dumpRes).result = NO_ERROR ∧
        dumpErrorText strerror dumpRes =
          "   Error dumping device: " ++ strerror (negInt32 dumpRes) ++ " ("
            ++ toString dumpRes ++ ")")) := by
  have hmarker : containsText "  *** Device is detached\n" "*** Device is detached" := by
    unfold containsText
    decide
  have herr : containsText (dumpErrorText strerror dumpRes) "Error dumping device" := by
    unfold dumpErrorText
    iterate 4 apply containsText_append_left
    unfold containsText
    decide
  have hhead := dumpHeader_contains s fmtPointer
  by_cases hdev : s.mDevice = none
  · rw [dumpClient_detached s fd args fmtPointer strerror dumpRes hdev]
    refine ⟨rfl, rfl, ⟨_, rfl⟩, ⟨_, rfl⟩, hhead.1, hhead.2, ?_, fun h => absurd hdev h⟩
    intro _
    refine ⟨rfl, ?_, rfl⟩
    simp only [writtenText]
    iterate 2 apply containsText_append_right
    exact containsText_append_left _ _ _ hmarker
  · by_cases hr : dumpRes = OK
    · rw [dumpClient_attached_ok s fd args fmtPointer strerror dumpRes hdev hr]
      refine ⟨rfl, rfl, ⟨_, rfl⟩, ⟨_, rfl⟩, hhead.1, hhead.2, fun h => absurd h hdev, ?_⟩
      intro _
      exact ⟨rfl, fun _ => rfl, fun h => absurd hr h⟩
    · rw [dumpClient_attached_error s fd args fmtPointer strerror dumpRes hdev hr]
      refine ⟨rfl, rfl, ⟨_, rfl⟩, ⟨_, rfl⟩, hhead.1, hhead.2, fun h => absurd h hdev, ?_⟩
      intro _
      exact ⟨rfl, fun h => absurd h hr, fun _ => ⟨rfl, herr, rfl, rfl⟩⟩

/-- C11 at concrete inputs: the sample session dumped while its device's dump
fails with status -19 still returns `NO_ERROR`, invokes the device's dump once
and ends with the error text; the same session with a null device handle
writes the detached marker and does not invoke a device dump; and when the
device's dump fails with `INT32_MIN` the negation wraps, so `strerror` is
given `-2147483648`. -/
theorem dumpClient_output_witness :
    (dumpClient sampleSession 3 [] samplePointerText sampleStrerror (-19)).result = NO_ERROR ∧
    (sampleSession.mDevice ≠ none ∧
      deviceDumpCalls
        (dumpClient sampleSession 3 [] samplePointerText sampleStrerror (-19)).calls = 1) ∧
    (dumpClient sampleSession 3 [] samplePointerText sampleStrerror (-19)).calls =
      [DumpCall.write 3 "Camera2ClientBase[0] (0x1) PID: 100, dump:\n  State: ",
       DumpCall.write 3 "  Device dump:\n",
       DumpCall.deviceDump 3 [] (-19),
       DumpCall.write 3 "   Error dumping device: No such device (-19)"] ∧
    (({ sampleSession with mDevice := none } : Session).mDevice = none ∧
      writtenText (dumpClient { sampleSession with mDevice := none } 3 []
        samplePointerText sampleStrerror OK).calls =
        "Camera2ClientBase[0] (0x1) PID: 100, dump:\n  State:   Device dump:\n  *** Device is detached\n") ∧
    ((-2147483648 : status_t) ≠ OK ∧
      (dumpClient sampleSession 3 [] samplePointerText echoStrerror (-2147483648)).calls =
        [DumpCall.write 3 "Camera2ClientBase[0] (0x1) PID: 100, dump:\n  State: ",
         DumpCall.write 3 "  Device dump:\n",
         DumpCall.deviceDump 3 [] (-2147483648),
         DumpCall.write 3
           "   Error dumping device: Unknown error -2147483648 (-2147483648)"]) :=
  ⟨(dumpClient_output sampleSession 3 [] samplePointerText sampleStrerror (-19)).1,
   ⟨by decide,
    ((dumpClient_output sampleSession 3 [] samplePointerText sampleStrerror
      (-19)).2.2.2.2.2.2.2 (by decide)).1⟩,
   by decide,
   ⟨rfl, by decide⟩,
   ⟨by decide,
    (((dumpClient_output sampleSession 3 [] samplePointerText echoStrerror
      (-2147483648)).2.2.2.2.2.2.2 (by decide)).2.2 (by decide)).1.trans (by decide)⟩⟩

/-! ### C12: the pid check -/

/-- C12: for every session and every calling pid `p`, `checkPid` returns
`NO_ERROR` if and only if `p` equals the recorded owning pid, returns
`PERMISSION_DENIED` otherwise, and in both cases leaves every session field
unchanged and calls no collaborator. -/
theorem checkPid_result (s : Session) (p : Int) :
    ((checkPid s p).result = NO_ERROR ↔ p = s.mClientPid) ∧
    (p ≠ s.mClientPid → (checkPid s p).result = PERMISSION_DENIED) ∧
    (checkPid s p).session = s ∧
    (checkPid s p).effects = [] := by
  unfold checkPid
  by_cases h : p = s.mClientPid
  · simp [h]
  · simp [h, PERMISSION_DENIED, NO_ERROR]

/-- C12 at concrete inputs: on the sample session (owner 100) the owner passes
the check and pid 200 is denied, the session untouched both times. -/
theorem checkPid_result_witness :
    (checkPid sampleSession 100).result = NO_ERROR ∧
    ((200 : Int) ≠ sampleSession.mClientPid ∧
      (checkPid sampleSession 200).result = PERMISSION_DENIED) ∧
    (checkPid sampleSession 200).session = sampleSession :=
  ⟨(checkPid_result sampleSession 100).1.2 (by decide),
   ⟨by decide, (checkPid_result sampleSession 200).2.1 (by decide)⟩,
   (checkPid_result sampleSession 200).2.2.1⟩

end Camera2ClientBase
